import Mathlib

/-!
Verification of pkg/image/registry/imagestream/strategy.go.

Shallow embedding: Go structs become Lean structures, Go maps become
association lists (first binding wins, as with unique-key Go maps),
`*int64` fields become `Option Int`, timestamps become `Int` (0 is the
zero timestamp), and functions that mutate their receiver are written in
state-passing style. Struct fields of the Go API types that the strategy
file never touches (annotations, import policy, labels) are omitted.
-/

/-- Embedding of kapi.ObjectReference restricted to the fields the strategy
uses: Kind, Name and Namespace. -/
structure ObjectReference where
  kind : String
  name : String
  nspace : String
deriving DecidableEq, Repr

/-- Embedding of api.TagReference with the fields the strategy reads or
writes: From (an optional object reference), Generation (optional int64)
and Reference (bool). -/
structure TagReference where
  fromRef : Option ObjectReference
  generation : Option Int
  reference : Bool
deriving DecidableEq, Repr

/-- Embedding of api.TagEvent: Created, DockerImageReference, Image and
Generation. Created is a timestamp modelled as Int. -/
structure TagEvent where
  created : Int
  dockerImageReference : String
  image : String
  generation : Int
deriving DecidableEq, Repr

/-- Embedding of api.TagEventList (the Items slice; most recent first). -/
structure TagEventList where
  items : List TagEvent
deriving DecidableEq, Repr

/-- Embedding of api.ImageStreamSpec: DockerImageRepository and the Tags
map. -/
structure ImageStreamSpec where
  dockerImageRepository : String
  tags : List (String × TagReference)
deriving DecidableEq, Repr

/-- Embedding of api.ImageStreamStatus: DockerImageRepository and the Tags
map. -/
structure ImageStreamStatus where
  dockerImageRepository : String
  tags : List (String × TagEventList)
deriving DecidableEq, Repr

/-- Embedding of api.ImageStream restricted to the fields the strategy
uses: Namespace, Name, CreationTimestamp, Generation, Spec, Status. -/
structure ImageStream where
  nspace : String
  name : String
  creationTimestamp : Int
  generation : Int
  spec : ImageStreamSpec
  status : ImageStreamStatus
deriving DecidableEq, Repr

/-- Lookup in an association list, modelling Go map indexing (keys are
unique in a Go map; the first binding wins here). -/
def alookup {α : Type} (l : List (String × α)) (k : String) : Option α :=
  match l with
  | [] => none
  | (k', v) :: rest => if k' = k then some v else alookup rest k

theorem alookup_map {α β : Type} (f : String → α → β) (l : List (String × α)) (k : String) :
    alookup (l.map fun p => (p.1, f p.1 p.2)) k = (alookup l k).map (f k) := by
  induction l with
  | nil => rfl
  | cons p rest ih =>
    obtain ⟨k', v⟩ := p
    by_cases h : k' = k <;> simp [alookup, h, ih]

/-- Embedding of tagRefGenerationChanged (strategy.go lines 294-307):
true iff both generations are set, they differ, and the new one is 0. -/
def tagRefGenerationChanged (old next : TagReference) : Bool :=
  match old.generation, next.generation with
  | some og, some ng =>
    if og = ng then false
    else if ng = 0 then true
    else false
  | _, _ => false

/-- Embedding of tagRefChanged (strategy.go lines 262-290). Note the
source compares namespaces (after defaulting empty ones to the stream
namespace), names, and generations; it never compares kinds. -/
def tagRefChanged (old next : TagReference) (streamNamespace : String) : Bool :=
  match next.fromRef with
  | none =>
    -- both fields in next are empty
    false
  | some nextFrom =>
    if nextFrom.kind = "" ∧ nextFrom.name = "" then
      -- invalid
      false
    else
      let oldFrom := old.fromRef.getD { kind := "", name := "", nspace := "" }
      let oldNamespace := if oldFrom.nspace = "" then streamNamespace else oldFrom.nspace
      let nextNamespace := if nextFrom.nspace = "" then streamNamespace else nextFrom.nspace
      if oldNamespace ≠ nextNamespace then true
      else if oldFrom.name ≠ nextFrom.name then true
      else tagRefGenerationChanged old next

/-- Rendering of claim C1 exactly as stated: after the nil and
empty-kind-and-name guards and namespace defaulting, a change is flagged
when the normalized namespaces differ, the names differ, the kinds
differ, or both generations are set, unequal, and the new one is 0. -/
def tagRefChangedClaimed (old next : TagReference) (streamNamespace : String) : Bool :=
  match next.fromRef with
  | none => false
  | some nextFrom =>
    if nextFrom.kind = "" ∧ nextFrom.name = "" then false
    else
      let oldFrom := old.fromRef.getD { kind := "", name := "", nspace := "" }
      let oldNamespace := if oldFrom.nspace = "" then streamNamespace else oldFrom.nspace
      let nextNamespace := if nextFrom.nspace = "" then streamNamespace else nextFrom.nspace
      decide (oldNamespace ≠ nextNamespace) || decide (oldFrom.name ≠ nextFrom.name) ||
        decide (oldFrom.kind ≠ nextFrom.kind) ||
        (match old.generation, next.generation with
         | some og, some ng => decide (og ≠ ng) && decide (ng = 0)
         | _, _ => false)

/-- Rendering of claim C1 as amended: the kind disjunct is dropped; the
source never compares the kinds of the two references. -/
def tagRefChangedAmendedSpec (old next : TagReference) (streamNamespace : String) : Bool :=
  match next.fromRef with
  | none => false
  | some nextFrom =>
    if nextFrom.kind = "" ∧ nextFrom.name = "" then false
    else
      let oldFrom := old.fromRef.getD { kind := "", name := "", nspace := "" }
      let oldNamespace := if oldFrom.nspace = "" then streamNamespace else oldFrom.nspace
      let nextNamespace := if nextFrom.nspace = "" then streamNamespace else nextFrom.nspace
      decide (oldNamespace ≠ nextNamespace) || decide (oldFrom.name ≠ nextFrom.name) ||
        (match old.generation, next.generation with
         | some og, some ng => decide (og ≠ ng) && decide (ng = 0)
         | _, _ => false)

/-- Old tag reference used to refute claim C1: kind ImageStreamTag. -/
def c1OldRef : TagReference :=
  { fromRef := some { kind := "ImageStreamTag", name := "foo", nspace := "" }
  , generation := none
  , reference := false }

/-- New tag reference used to refute claim C1: kind ImageStreamImage,
same name and namespace as the old one. -/
def c1NextRef : TagReference :=
  { fromRef := some { kind := "ImageStreamImage", name := "foo", nspace := "" }
  , generation := none
  , reference := false }

/-- C1 counterexample: on two references that differ only in kind, the
source's tagRefChanged returns false while the claim as stated would
flag a change because the kinds differ. -/
theorem c1_counterexample :
    tagRefChanged c1OldRef c1NextRef "ns" = false ∧
    tagRefChangedClaimed c1OldRef c1NextRef "ns" = true := by
  constructor <;> rfl

/-- C1 (amended): tagRefChanged returns false when the new from is nil or
its kind and name are both empty; otherwise, after defaulting empty
namespaces to the resource namespace, it returns true exactly when the
normalized namespaces differ, the names differ, or both generations are
set, unequal, and the new generation is exactly 0. Kind differences are
not compared. -/
theorem c1_tagRefChanged_spec (old next : TagReference) (streamNamespace : String) :
    tagRefChanged old next streamNamespace = tagRefChangedAmendedSpec old next streamNamespace := by
  unfold tagRefChanged tagRefChangedAmendedSpec
  cases hnf : next.fromRef with
  | none => rfl
  | some nextFrom =>
    by_cases hkn : nextFrom.kind = "" ∧ nextFrom.name = ""
    · simp [hkn]
    · simp only [if_neg hkn]
      set oldFrom := old.fromRef.getD { kind := "", name := "", nspace := "" } with hof
      set oldNamespace := if oldFrom.nspace = "" then streamNamespace else oldFrom.nspace
      set nextNamespace := if nextFrom.nspace = "" then streamNamespace else nextFrom.nspace
      by_cases hns : oldNamespace = nextNamespace
      · by_cases hnm : oldFrom.name = nextFrom.name
        · simp only [hns, hnm, ne_eq, not_true_eq_false, if_false, decide_False]
          unfold tagRefGenerationChanged
          cases old.generation with
          | none => simp
          | some og =>
            cases next.generation with
            | none => simp
            | some ng =>
              by_cases heq : og = ng
              · simp [heq]
              · by_cases hz : ng = 0 <;> simp [heq, hz]
        · simp [hns, hnm]
      · simp [hns]

/-- Embedding of kapi.NamespaceDefault (the constant "default" from the
Kubernetes API package). -/
def NamespaceDefault : String := "default"

/-- Modelled from the spec: api.DockerImageReference.String is not part
of the source under verification; section 6 describes the derived
repository value as registryHost/namespace/name. -/
def dockerImageReferenceString (registry nspace name : String) : String :=
  registry ++ "/" ++ nspace ++ "/" ++ name

/-- Embedding of Strategy.dockerImageRepository (strategy.go lines
96-111). The default registry provider is modelled as an optional
registry string. The Go method mutates stream.Namespace when it is empty
and a default registry exists, so the embedding returns the derived
string together with the possibly mutated stream. -/
def dockerImageRepository (defaultRegistry : Option String) (stream : ImageStream) :
    String × ImageStream :=
  match defaultRegistry with
  | none => (stream.spec.dockerImageRepository, stream)
  | some registry =>
    let stream := if stream.nspace = "" then { stream with nspace := NamespaceDefault } else stream
    (dockerImageReferenceString registry stream.nspace stream.name, stream)

/-- Embedding of updateSpecTagGenerationsForUpdate (strategy.go lines
315-325): every spec tag whose generation is not exactly 0 and which has
a counterpart in the old spec gets the old counterpart's generation. -/
def updateSpecTagGenerationsForUpdate (stream oldStream : ImageStream) : ImageStream :=
  { stream with spec.tags := stream.spec.tags.map fun p =>
      let tag := p.1
      let ref := p.2
      if ref.generation = some 0 then (tag, ref)
      else
        match alookup oldStream.spec.tags tag with
        | some oldRef => (tag, { ref with generation := oldRef.generation })
        | none => (tag, ref) }

/-- Embedding of ensureSpecTagGenerationsAreSet (strategy.go lines
329-347): a spec tag that is new or changed per tagRefChanged has its
generation cleared; afterwards any tag with a nil or zero generation is
stamped with the stream generation. -/
def ensureSpecTagGenerationsAreSet (stream oldStream : ImageStream) : ImageStream :=
  { stream with spec.tags := stream.spec.tags.map fun p =>
      let tag := p.1
      let ref := p.2
      let ref :=
        match alookup oldStream.spec.tags tag with
        | none => { ref with generation := none }
        | some oldRef =>
          if tagRefChanged oldRef ref stream.nspace then { ref with generation := none } else ref
      match ref.generation with
      | some g => if g ≠ 0 then (tag, ref) else (tag, { ref with generation := some stream.generation })
      | none => (tag, { ref with generation := some stream.generation }) }

/-- Embedding of the first half of Strategy.prepareForUpdate
(strategy.go lines 429-440): generation copied forward, status reset
when requested, derived repository recomputed, spec tag generations
pinned. -/
def prepareForUpdateStep1 (defaultRegistry : Option String) (stream oldStream : ImageStream)
    (resetStatus : Bool) : ImageStream :=
  let stream := { stream with generation := oldStream.generation }
  let stream := if resetStatus then { stream with status := oldStream.status } else stream
  let p := dockerImageRepository defaultRegistry stream
  let stream := { p.2 with status.dockerImageRepository := p.1 }
  updateSpecTagGenerationsForUpdate stream oldStream

/-- Embedding of Strategy.prepareForUpdate (strategy.go lines 429-452):
after pinning, the generation is bumped when the spec differs from the
old spec (deep equality) or the carried-forward generation is 0, and
finally spec tag generations are defaulted. -/
def prepareForUpdate (defaultRegistry : Option String) (stream oldStream : ImageStream)
    (resetStatus : Bool) : ImageStream :=
  let stream := prepareForUpdateStep1 defaultRegistry stream oldStream resetStatus
  let stream :=
    if oldStream.spec ≠ stream.spec ∨ stream.generation = 0 then
      { stream with generation := oldStream.generation + 1 }
    else stream
  ensureSpecTagGenerationsAreSet stream oldStream

theorem updateSpecTagGenerationsForUpdate_generation (stream oldStream : ImageStream) :
    (updateSpecTagGenerationsForUpdate stream oldStream).generation = stream.generation := rfl

theorem ensureSpecTagGenerationsAreSet_generation (stream oldStream : ImageStream) :
    (ensureSpecTagGenerationsAreSet stream oldStream).generation = stream.generation := rfl

theorem dockerImageRepository_generation (reg : Option String) (stream : ImageStream) :
    (dockerImageRepository reg stream).2.generation = stream.generation := by
  unfold dockerImageRepository
  cases reg with
  | none => rfl
  | some r => by_cases h : stream.nspace = "" <;> simp [h]

theorem prepareForUpdateStep1_generation (reg : Option String) (stream oldStream : ImageStream)
    (resetStatus : Bool) :
    (prepareForUpdateStep1 reg stream oldStream resetStatus).generation = oldStream.generation := by
  unfold prepareForUpdateStep1
  by_cases h : resetStatus <;>
    simp [h, updateSpecTagGenerationsForUpdate_generation, dockerImageRepository_generation]

/-- Old stream used to refute claim C2: generation 0, empty spec. -/
def c2Old : ImageStream :=
  { nspace := "ns", name := "s", creationTimestamp := 0, generation := 0
  , spec := { dockerImageRepository := "", tags := [] }
  , status := { dockerImageRepository := "", tags := [] } }

/-- Incoming stream used to refute claim C2: identical spec to c2Old. -/
def c2New : ImageStream :=
  { nspace := "ns", name := "s", creationTimestamp := 0, generation := 0
  , spec := { dockerImageRepository := "", tags := [] }
  , status := { dockerImageRepository := "", tags := [] } }

/-- C2 counterexample: with an old generation of 0 and a pinned spec that
is deep-equal to the old spec, prepareForUpdate still bumps the
generation to 1, so it does not stay equal to the old generation as the
claim states. -/
theorem c2_counterexample :
    (prepareForUpdateStep1 none c2New c2Old true).spec = c2Old.spec ∧
    (prepareForUpdate none c2New c2Old true).generation ≠ c2Old.generation := by
  constructor
  · rfl
  · decide

/-- C2 (amended): the generation resulting from spec-update preparation
is at least the old generation; it equals the old generation plus 1
exactly when the pinned spec is not deep-equal to the old spec or the
old generation is 0, and otherwise stays equal to the old generation. -/
theorem c2_prepareForUpdate_generation (reg : Option String) (stream oldStream : ImageStream)
    (resetStatus : Bool) :
    oldStream.generation ≤ (prepareForUpdate reg stream oldStream resetStatus).generation ∧
    (prepareForUpdate reg stream oldStream resetStatus).generation =
      (if oldStream.spec ≠ (prepareForUpdateStep1 reg stream oldStream resetStatus).spec ∨
          oldStream.generation = 0
       then oldStream.generation + 1 else oldStream.generation) := by
  unfold prepareForUpdate
  rw [ensureSpecTagGenerationsAreSet_generation]
  by_cases h : oldStream.spec ≠ (prepareForUpdateStep1 reg stream oldStream resetStatus).spec ∨
      (prepareForUpdateStep1 reg stream oldStream resetStatus).generation = 0
  · rw [if_pos h]
    rw [prepareForUpdateStep1_generation] at h
    simp only [if_pos h]
    constructor
    · omega
    · trivial
  · rw [if_neg h]
    rw [prepareForUpdateStep1_generation] at h
    simp only [if_neg h]
    rw [prepareForUpdateStep1_generation]
    exact ⟨le_refl _, rfl⟩

/-- Embedding of tagEventChanged (strategy.go lines 309-311): true when
the images differ, the image references differ, or the old generation
exceeds the new one. -/
def tagEventChanged (old next : TagEvent) : Bool :=
  decide (old.image ≠ next.image) || decide (old.dockerImageReference ≠ next.dockerImageReference) ||
    decide (old.generation > next.generation)

/-- Embedding of one iteration of the loop in
updateObservedGenerationForStatusUpdate (strategy.go lines 351-376),
acting on the entry for one tag of status.tags. -/
def observedGenUpdateEntry (streamGen : Int) (specTags : List (String × TagReference))
    (oldStatusTags : List (String × TagEventList)) (tag : String) (newer : TagEventList) :
    TagEventList :=
  match newer.items with
  | [] => newer
  | n0 :: rest =>
    if n0.generation ≠ 0 then
      -- generation is set, continue
      newer
    else
      let older := (alookup oldStatusTags tag).getD { items := [] }
      let stamp := fun (g : Int) => TagEventList.mk ({ n0 with generation := g } :: rest)
      match older.items with
      | [] => stamp streamGen
      | o0 :: _ =>
        if ¬ tagEventChanged o0 n0 then
          -- the tag was not changed by the status update
          stamp streamGen
        else
          match alookup specTags tag with
          | none => stamp streamGen
          | some sp =>
            match sp.generation with
            | none =>
              -- the spec tag has no generation
              stamp streamGen
            | some g =>
              -- set the status tag from the spec tag generation
              stamp g

/-- Embedding of updateObservedGenerationForStatusUpdate (strategy.go
lines 350-377): every status entry whose head event has generation 0 is
stamped per observedGenUpdateEntry. -/
def updateObservedGenerationForStatusUpdate (stream oldStream : ImageStream) : ImageStream :=
  { stream with status.tags := stream.status.tags.map fun p =>
      (p.1, observedGenUpdateEntry stream.generation stream.spec.tags oldStream.status.tags p.1 p.2) }

/-- Embedding of StatusStrategy.PrepareForUpdate (strategy.go lines
493-501): the spec tags and spec repository are replaced by the old
ones, then observed generations are defaulted. -/
def statusPrepareForUpdate (stream oldStream : ImageStream) : ImageStream :=
  let stream := { stream with
    spec.tags := oldStream.spec.tags
    spec.dockerImageRepository := oldStream.spec.dockerImageRepository }
  updateObservedGenerationForStatusUpdate stream oldStream

/-- Head event of the old status history used to refute claim C3:
content a, reference r, generation 5. -/
def c3OldHead : TagEvent :=
  { created := 1, dockerImageReference := "r", image := "a", generation := 5 }

/-- Head event of the incoming status history used to refute claim C3:
identical content and reference, generation 0 (unset). -/
def c3NewHead : TagEvent :=
  { created := 2, dockerImageReference := "r", image := "a", generation := 0 }

/-- Old stream used to refute claim C3: spec tag with generation 3,
status history headed by c3OldHead. -/
def c3Old : ImageStream :=
  { nspace := "ns", name := "s", creationTimestamp := 0, generation := 5
  , spec := { dockerImageRepository := ""
            , tags := [("t", { fromRef := none, generation := some 3, reference := false })] }
  , status := { dockerImageRepository := "", tags := [("t", { items := [c3OldHead] })] } }

/-- Incoming stream used to refute claim C3: resource generation 7,
status history headed by c3NewHead. -/
def c3New : ImageStream :=
  { nspace := "ns", name := "s", creationTimestamp := 0, generation := 7
  , spec := { dockerImageRepository := "", tags := [] }
  , status := { dockerImageRepository := "", tags := [("t", { items := [c3NewHead] })] } }

/-- C3 counterexample: the incoming head event is identical in content
and reference to the old head event, yet status-update preparation
stamps it with the spec tag generation 3, not the resource generation 7,
because the old head generation 5 exceeds the unset new generation 0 and
so the head counts as changed. -/
theorem c3_counterexample :
    c3OldHead.image = c3NewHead.image ∧
    c3OldHead.dockerImageReference = c3NewHead.dockerImageReference ∧
    alookup (statusPrepareForUpdate c3New c3Old).status.tags "t" =
      some { items := [{ c3NewHead with generation := 3 }] } ∧
    (3 : Int) ≠ c3New.generation := by
  refine ⟨rfl, rfl, ?_, by decide⟩
  rfl

/-- C3 (amended): during status-update preparation, a tag whose head
event has generation 0 is stamped as follows: if the old history is
empty, or the head event is identical in content and reference to the
old head event and the old head generation does not exceed the new (0)
one, it gets the resource generation; otherwise, if the old spec tag is
absent or has no generation, it gets the resource generation; otherwise
it gets the spec tag generation. -/
theorem c3_statusUpdate_generation (stream oldStream : ImageStream) (tag : String)
    (newer : TagEventList) (n0 : TagEvent) (rest : List TagEvent)
    (hl : alookup stream.status.tags tag = some newer)
    (hi : newer.items = n0 :: rest)
    (hg : n0.generation = 0) :
    alookup (statusPrepareForUpdate stream oldStream).status.tags tag =
      some { items := { n0 with generation :=
        match ((alookup oldStream.status.tags tag).getD { items := [] }).items with
        | [] => stream.generation
        | o0 :: _ =>
          if ¬ tagEventChanged o0 n0 then stream.generation
          else
            match alookup oldStream.spec.tags tag with
            | none => stream.generation
            | some sp => sp.generation.getD stream.generation } :: rest } := by
  obtain ⟨items⟩ := newer
  simp only at hi
  subst hi
  unfold statusPrepareForUpdate updateObservedGenerationForStatusUpdate
  simp only [alookup_map, hl, Option.map_some]
  unfold observedGenUpdateEntry
  cases hold : ((alookup oldStream.status.tags tag).getD { items := [] }).items with
  | nil => simp [hg, hold]
  | cons o0 os =>
    by_cases hch : tagEventChanged o0 n0
    · cases hsp : alookup oldStream.spec.tags tag with
      | none => simp [hg, hold, hch, hsp]
      | some sp =>
        cases hgen : sp.generation with
        | none => simp [hg, hold, hch, hsp, hgen]
        | some g => simp [hg, hold, hch, hsp, hgen]
    · simp [hg, hold, hch]

/-- C3 witness: the amended stamping rule applied to the concrete
streams of the counterexample yields generation 3. -/
theorem c3_statusUpdate_generation_witness :
    alookup (statusPrepareForUpdate c3New c3Old).status.tags "t" =
      some { items := [{ c3NewHead with generation := 3 }] } := by
  have h := c3_statusUpdate_generation c3New c3Old "t" { items := [c3NewHead] } c3NewHead []
    (by rfl) (by rfl) (by rfl)
  exact h

/-- C6 (confirmed): status-update preparation replaces the spec of the
incoming resource wholesale with the old spec, so afterwards no field of
the desired state differs from the old spec. -/
theorem c6_statusUpdate_spec_replaced (stream oldStream : ImageStream) :
    (statusPrepareForUpdate stream oldStream).spec = oldStream.spec := rfl

/-- Embedding of parseFromReference (strategy.go lines 113-139): splits
the reference name on the kind-specific separator; one segment is a
self-reference, two segments name another stream. -/
def parseFromReference (stream : ImageStream) (fromRef : ObjectReference) :
    Except String (String × String) :=
  match (if fromRef.kind = "ImageStreamTag" then some ":"
         else if fromRef.kind = "ImageStreamImage" then some "@"
         else none) with
  | none => Except.error "invalid from.kind - only ImageStreamTag and ImageStreamImage are allowed"
  | some splitChar =>
    match fromRef.name.splitOn splitChar with
    | [_] => Except.ok (stream.name, fromRef.name)
    | [a, b] => Except.ok (a, b)
    | _ => Except.error "invalid from.name - it must be of the form ref or stream, separator, ref"

/-- Modelled from the spec: api.ResolveImageID is not part of the source
under verification; section 4.2 describes it as looking up, within the
target resource history, the TagEvent whose content reference matches
the requested id, failing on a malformed id and returning nil when the
id is simply not found. -/
def resolveImageID (stream : ImageStream) (imageID : String) :
    Except String (Option TagEvent) :=
  if imageID = "" then Except.error "malformed image id"
  else Except.ok ((stream.status.tags.flatMap fun p => p.2.items).find? fun ev =>
    ev.image = imageID)

/-- Modelled from the spec: api.LatestTaggedImage is not part of the
source under verification; section 4.2 describes it as the head TagEvent
of the named tag history in the target resource, nil when that tag has
no history yet. -/
def latestTaggedImage (stream : ImageStream) (tag : String) : Option TagEvent :=
  match alookup stream.status.tags tag with
  | none => none
  | some l => l.items.head?

/-- Embedding of tagReferenceToTagEvent (strategy.go lines 233-259). The
Go code dereferences tagRef.From unconditionally, so a nil From would
panic; that case is modelled as an error. The clock is passed in as the
now argument. -/
def tagReferenceToTagEvent (now : Int) (stream : ImageStream) (tagRef : TagReference)
    (tagOrID : String) : Except String (Option TagEvent) :=
  match tagRef.fromRef with
  | none => Except.error "nil from reference"
  | some f =>
    match (if f.kind = "DockerImage" then
             Except.ok (some { created := now, dockerImageReference := f.name
                             , image := "", generation := 0 })
           else if f.kind = "ImageStreamImage" then
             resolveImageID stream tagOrID
           else if f.kind = "ImageStreamTag" then
             Except.ok (latestTaggedImage stream tagOrID)
           else
             (Except.error "invalid from.kind: it must be DockerImage, ImageStreamImage or ImageStreamTag" :
               Except String (Option TagEvent))) with
    | Except.error e => Except.error e
    | Except.ok none => Except.ok none
    | Except.ok (some ev) =>
      match tagRef.generation with
      | some g => Except.ok (some { ev with generation := g })
      | none => Except.ok (some ev)

/-- C7 (confirmed): a DockerImage reference always resolves to an event
whose image reference is the from name verbatim with timestamp now; and
any successful resolution with a generation-bearing tag spec yields an
event carrying that generation. -/
theorem c7_tagReferenceToTagEvent (now : Int) (stream : ImageStream) (tagRef : TagReference)
    (tagOrID : String) (f : ObjectReference) (hf : tagRef.fromRef = some f) :
    (f.kind = "DockerImage" →
      tagReferenceToTagEvent now stream tagRef tagOrID =
        Except.ok (some { created := now, dockerImageReference := f.name, image := ""
                        , generation := tagRef.generation.getD 0 })) ∧
    (∀ ev g, tagReferenceToTagEvent now stream tagRef tagOrID = Except.ok (some ev) →
      tagRef.generation = some g → ev.generation = g) := by
  constructor
  · intro hk
    unfold tagReferenceToTagEvent
    rw [hf]
    simp only [hk, if_pos rfl, if_true]
    cases htg : tagRef.generation with
    | none => simp [htg]
    | some g => simp [htg]
  · intro ev g hres hgen
    have hred : tagReferenceToTagEvent now stream tagRef tagOrID =
        (match (if f.kind = "DockerImage" then
                  Except.ok (some { created := now, dockerImageReference := f.name
                                  , image := "", generation := 0 })
                else if f.kind = "ImageStreamImage" then
                  resolveImageID stream tagOrID
                else if f.kind = "ImageStreamTag" then
                  Except.ok (latestTaggedImage stream tagOrID)
                else
                  (Except.error "invalid from.kind: it must be DockerImage, ImageStreamImage or ImageStreamTag" :
                    Except String (Option TagEvent))) with
         | Except.error e => Except.error e
         | Except.ok none => Except.ok none
         | Except.ok (some ev) =>
           match tagRef.generation with
           | some g => Except.ok (some { ev with generation := g })
           | none => Except.ok (some ev)) := by
      unfold tagReferenceToTagEvent
      rw [hf]
    rw [hred] at hres
    cases hbig : (if f.kind = "DockerImage" then
             Except.ok (some { created := now, dockerImageReference := f.name
                             , image := "", generation := 0 })
           else if f.kind = "ImageStreamImage" then
             resolveImageID stream tagOrID
           else if f.kind = "ImageStreamTag" then
             Except.ok (latestTaggedImage stream tagOrID)
           else
             (Except.error "invalid from.kind: it must be DockerImage, ImageStreamImage or ImageStreamTag" :
               Except String (Option TagEvent))) with
    | error e => rw [hbig] at hres; exact absurd hres (by simp)
    | ok oev =>
      rw [hbig] at hres
      cases oev with
      | none => exact absurd hres (by simp)
      | some e0 =>
        rw [hgen] at hres
        simp only [Except.ok.injEq, Option.some.injEq] at hres
        subst hres
        rfl

/-- Stream context used in the C7 witness (empty histories). -/
def c7Stream : ImageStream :=
  { nspace := "ns", name := "s", creationTimestamp := 0, generation := 1
  , spec := { dockerImageRepository := "", tags := [] }
  , status := { dockerImageRepository := "", tags := [] } }

/-- Tag reference used in the C7 witness: DockerImage kind with a digest
name and generation 5. -/
def c7TagRef : TagReference :=
  { fromRef := some { kind := "DockerImage", name := "registry.example/ns/img@sha256:abc"
                    , nspace := "" }
  , generation := some 5
  , reference := true }

/-- Event expected by the C7 witness. -/
def c7Event : TagEvent :=
  { created := 100, dockerImageReference := "registry.example/ns/img@sha256:abc"
  , image := "", generation := 5 }

/-- C7 witness: resolving the concrete DockerImage reference at time 100
yields exactly the verbatim reference with generation 5. -/
theorem c7_tagReferenceToTagEvent_witness :
    tagReferenceToTagEvent 100 c7Stream c7TagRef "" = Except.ok (some c7Event) ∧
    c7Event.generation = 5 := by
  have hres : tagReferenceToTagEvent 100 c7Stream c7TagRef "" = Except.ok (some c7Event) :=
    (c7_tagReferenceToTagEvent 100 c7Stream c7TagRef ""
      { kind := "DockerImage", name := "registry.example/ns/img@sha256:abc", nspace := "" }
      rfl).1 rfl
  exact ⟨hres, (c7_tagReferenceToTagEvent 100 c7Stream c7TagRef ""
      { kind := "DockerImage", name := "registry.example/ns/img@sha256:abc", nspace := "" }
      rfl).2 c7Event 5 hres rfl⟩

/-- Setting of ref.Generation to a pointer to the stream generation in
the create loops (strategy.go lines 64-67 and 550-553), modelled as
storing the current value. -/
def stampGeneration (g : Int) (ref : TagReference) : TagReference :=
  { ref with generation := some g }

theorem alookup_map_val {α β : Type} (g : α → β) (l : List (String × α)) (k : String) :
    alookup (l.map fun p => (p.1, g p.2)) k = (alookup l k).map g := by
  induction l with
  | nil => rfl
  | cons p rest ih =>
    obtain ⟨k', v⟩ := p
    by_cases h : k' = k <;> simp [alookup, h, ih]

/-- Embedding of Strategy.PrepareForCreate (strategy.go lines 57-68):
the status is replaced wholesale by the derived repository and an empty
tags map, the generation is set to 1, and every spec tag is stamped with
generation 1 (the Go code takes a pointer to stream.Generation, which is
1 at that point and is not changed afterwards). -/
def prepareForCreate (defaultRegistry : Option String) (stream : ImageStream) : ImageStream :=
  { (dockerImageRepository defaultRegistry stream).2 with
    status := { dockerImageRepository := (dockerImageRepository defaultRegistry stream).1
              , tags := [] }
    generation := 1
    spec.tags := (dockerImageRepository defaultRegistry stream).2.spec.tags.map fun q =>
      (q.1, stampGeneration 1 q.2) }

/-- Embedding of InternalStrategy.PrepareForCreate (strategy.go lines
545-554): only the status repository field is recomputed (caller status
tags survive), the generation is set to 1, and every spec tag is stamped
with generation 1. -/
def internalPrepareForCreate (defaultRegistry : Option String) (stream : ImageStream) :
    ImageStream :=
  { (dockerImageRepository defaultRegistry stream).2 with
    status.dockerImageRepository := (dockerImageRepository defaultRegistry stream).1
    generation := 1
    spec.tags := (dockerImageRepository defaultRegistry stream).2.spec.tags.map fun q =>
      (q.1, stampGeneration 1 q.2) }

/-- Embedding of Strategy.Decorate (strategy.go lines 477-481): the
status repository field is recomputed from dockerImageRepository. -/
def decorate (defaultRegistry : Option String) (stream : ImageStream) : ImageStream :=
  { (dockerImageRepository defaultRegistry stream).2 with
    status.dockerImageRepository := (dockerImageRepository defaultRegistry stream).1 }

theorem dockerImageRepository_spec (reg : Option String) (stream : ImageStream) :
    (dockerImageRepository reg stream).2.spec = stream.spec := by
  unfold dockerImageRepository
  cases reg with
  | none => rfl
  | some r => by_cases h : stream.nspace = "" <;> simp [h]

theorem dockerImageRepository_status (reg : Option String) (stream : ImageStream) :
    (dockerImageRepository reg stream).2.status = stream.status := by
  unfold dockerImageRepository
  cases reg with
  | none => rfl
  | some r => by_cases h : stream.nspace = "" <;> simp [h]

/-- C5 (confirmed): on both the user-facing and the internal strategy,
create preparation yields resource generation 1 and stamps the
generation of every spec tag carrying a from reference to 1, regardless
of caller-supplied values. -/
theorem c5_create_generation (reg : Option String) (stream : ImageStream) (tag : String)
    (ref : TagReference) :
    ((prepareForCreate reg stream).generation = 1 ∧
      (internalPrepareForCreate reg stream).generation = 1) ∧
    (alookup (prepareForCreate reg stream).spec.tags tag = some ref → ref.fromRef ≠ none →
      ref.generation = some 1) ∧
    (alookup (internalPrepareForCreate reg stream).spec.tags tag = some ref →
      ref.fromRef ≠ none → ref.generation = some 1) := by
  refine ⟨⟨rfl, rfl⟩, ?_, ?_⟩
  · intro h _
    unfold prepareForCreate at h
    simp only [alookup_map_val] at h
    cases hx : alookup (dockerImageRepository reg stream).2.spec.tags tag with
    | none => rw [hx] at h; exact absurd h (by simp)
    | some r0 =>
      rw [hx] at h
      simp only [Option.map_some', Option.some.injEq] at h
      rw [← h]
      rfl
  · intro h _
    unfold internalPrepareForCreate at h
    simp only [alookup_map_val] at h
    cases hx : alookup (dockerImageRepository reg stream).2.spec.tags tag with
    | none => rw [hx] at h; exact absurd h (by simp)
    | some r0 =>
      rw [hx] at h
      simp only [Option.map_some', Option.some.injEq] at h
      rw [← h]
      rfl

/-- Stream used in the C5 witness: a tag with a from reference and a
caller-supplied generation of 99. -/
def c5Stream : ImageStream :=
  { nspace := "ns", name := "s", creationTimestamp := 0, generation := 42
  , spec := { dockerImageRepository := ""
            , tags := [("t", { fromRef := some { kind := "DockerImage", name := "x", nspace := "" }
                             , generation := some 99, reference := false })] }
  , status := { dockerImageRepository := "", tags := [] } }

/-- Tag reference after the C5 create stamping. -/
def c5StampedRef : TagReference :=
  { fromRef := some { kind := "DockerImage", name := "x", nspace := "" }
  , generation := some 1, reference := false }

/-- C5 witness: the concrete stream with caller generation 99 comes out
of create preparation with generation 1 everywhere. -/
theorem c5_create_generation_witness :
    (prepareForCreate (some "reg") c5Stream).generation = 1 ∧
    c5StampedRef.generation = some 1 := by
  refine ⟨(c5_create_generation (some "reg") c5Stream "t" c5StampedRef).1.1, ?_⟩
  exact (c5_create_generation (some "reg") c5Stream "t" c5StampedRef).2.1 (by decide) (by decide)

/-- C8 (confirmed): user-facing create preparation discards any
caller-supplied status wholesale, leaving the derived repository string
and an empty tag-history map; internal create preparation preserves the
caller-supplied status tags and recomputes only the repository string. -/
theorem c8_create_status (reg : Option String) (stream : ImageStream) :
    (prepareForCreate reg stream).status =
      { dockerImageRepository := (dockerImageRepository reg stream).1, tags := [] } ∧
    (internalPrepareForCreate reg stream).status =
      { dockerImageRepository := (dockerImageRepository reg stream).1
      , tags := stream.status.tags } := by
  constructor
  · rfl
  · show ({ (dockerImageRepository reg stream).2.status with
      dockerImageRepository := (dockerImageRepository reg stream).1 } : ImageStreamStatus) = _
    rw [dockerImageRepository_status]

/-- Embedding of the consistent-creation-timestamp loop at the end of
tagsChanged (strategy.go lines 220-228). The guard is old == nil (a
create) together with a non-zero creation timestamp. In Go, the loop
for _, event := range list.Items binds event to a copy of each slice
element, so the assignment event.Created = stream.CreationTimestamp
writes only that per-iteration copy; the slice elements are never
written, and the unchanged list is re-stored under its key. The mapped
copies are therefore produced and dropped. -/
def applyConsistentCreationTimestamp (isCreate : Bool) (creationTimestamp : Int)
    (statusTags : List (String × TagEventList)) : List (String × TagEventList) :=
  if isCreate ∧ creationTimestamp ≠ 0 then
    statusTags.map fun p =>
      let _droppedCopies := p.2.items.map fun event => { event with created := creationTimestamp }
      (p.1, p.2)
  else statusTags

/-- C9 (confirmed): the final creation-timestamp loop of tagsChanged
leaves every stored TagEvent unchanged, so the stored events keep the
timestamps assigned by the resolver. -/
theorem c9_creation_timestamp_loop_is_noop (isCreate : Bool) (creationTimestamp : Int)
    (statusTags : List (String × TagEventList)) :
    applyConsistentCreationTimestamp isCreate creationTimestamp statusTags = statusTags := by
  unfold applyConsistentCreationTimestamp
  split
  · simp
  · rfl

theorem dockerImageRepository_nspace_default (registry : String) (stream : ImageStream)
    (h : stream.nspace = "") :
    (dockerImageRepository (some registry) stream).2.nspace = NamespaceDefault := by
  unfold dockerImageRepository
  simp [h]

theorem updateSpecTagGenerationsForUpdate_nspace (stream oldStream : ImageStream) :
    (updateSpecTagGenerationsForUpdate stream oldStream).nspace = stream.nspace := rfl

theorem ensureSpecTagGenerationsAreSet_nspace (stream oldStream : ImageStream) :
    (ensureSpecTagGenerationsAreSet stream oldStream).nspace = stream.nspace := rfl

theorem prepareForUpdateStep1_nspace_default (registry : String) (stream oldStream : ImageStream)
    (resetStatus : Bool) (h : stream.nspace = "") :
    (prepareForUpdateStep1 (some registry) stream oldStream resetStatus).nspace =
      NamespaceDefault := by
  unfold prepareForUpdateStep1
  by_cases hr : resetStatus <;>
    simp only [hr, if_true, if_false, updateSpecTagGenerationsForUpdate_nspace] <;>
    exact dockerImageRepository_nspace_default registry _ h

/-- C10 (confirmed): whenever a default registry is configured and the
resource namespace is empty, computing the derived status repository
sets the namespace to the default namespace as a side effect; this
surfaces through create preparation, spec-update preparation, and read
decoration. -/
theorem c10_namespace_mutation (registry : String) (stream oldStream : ImageStream)
    (resetStatus : Bool) (h : stream.nspace = "") :
    (dockerImageRepository (some registry) stream).2.nspace = NamespaceDefault ∧
    (prepareForCreate (some registry) stream).nspace = NamespaceDefault ∧
    (internalPrepareForCreate (some registry) stream).nspace = NamespaceDefault ∧
    (prepareForUpdate (some registry) stream oldStream resetStatus).nspace = NamespaceDefault ∧
    (decorate (some registry) stream).nspace = NamespaceDefault := by
  refine ⟨dockerImageRepository_nspace_default registry stream h, ?_, ?_, ?_, ?_⟩
  · show (dockerImageRepository (some registry) stream).2.nspace = NamespaceDefault
    exact dockerImageRepository_nspace_default registry stream h
  · show (dockerImageRepository (some registry) stream).2.nspace = NamespaceDefault
    exact dockerImageRepository_nspace_default registry stream h
  · unfold prepareForUpdate
    rw [ensureSpecTagGenerationsAreSet_nspace]
    split
    · exact prepareForUpdateStep1_nspace_default registry stream oldStream resetStatus h
    · exact prepareForUpdateStep1_nspace_default registry stream oldStream resetStatus h
  · show (dockerImageRepository (some registry) stream).2.nspace = NamespaceDefault
    exact dockerImageRepository_nspace_default registry stream h

/-- Stream with an empty namespace used in the C10 witness. -/
def c10Stream : ImageStream :=
  { nspace := "", name := "s", creationTimestamp := 0, generation := 3
  , spec := { dockerImageRepository := "", tags := [] }
  , status := { dockerImageRepository := "", tags := [] } }

/-- C10 witness: decorating the concrete empty-namespace stream with a
default registry leaves its namespace set to the default namespace. -/
theorem c10_namespace_mutation_witness :
    (decorate (some "registry.local") c10Stream).nspace = NamespaceDefault ∧
    (prepareForUpdate (some "registry.local") c10Stream c10Stream true).nspace =
      NamespaceDefault :=
  ⟨(c10_namespace_mutation "registry.local" c10Stream c10Stream true rfl).2.2.2.2,
   (c10_namespace_mutation "registry.local" c10Stream c10Stream true rfl).2.2.2.1⟩

/-- Outcome of one subject access review call, as the Go code observes
it: a transport error, a nil response, or a response with Allowed. -/
inductive SARResult where
  | failure : SARResult
  | nilResponse : SARResult
  | response : Bool → SARResult
deriving DecidableEq, Repr

/-- Kinds of field errors produced by the verifier. -/
inductive FieldErrorKind where
  | invalid : FieldErrorKind
  | forbidden : FieldErrorKind
deriving DecidableEq, Repr

/-- One field error: its kind, field path and offending value. -/
structure FieldError where
  kind : FieldErrorKind
  field : String
  detail : String
deriving DecidableEq, Repr

/-- One issued subject access review, recording the attributes the Go
code sets (strategy.go lines 409-418). -/
structure SARCheck where
  verb : String
  resource : String
  resourceName : String
  nspace : String
deriving DecidableEq, Repr

/-- Embedding of the check issued for one tag once all continue guards
have been passed (strategy.go lines 403-424): parse the reference, issue
the review, and turn anything but an allowed response into a forbidden
field error. -/
def verifyEntryCheck (sar : String → String → SARResult) (stream : ImageStream) (tag : String)
    (f : ObjectReference) : List FieldError × List SARCheck :=
  match parseFromReference stream f with
  | Except.error _ =>
    ([{ kind := FieldErrorKind.invalid, field := "spec.tags[" ++ tag ++ "].from.name"
      , detail := f.name }], [])
  | Except.ok (streamName, _) =>
    let check : SARCheck :=
      { verb := "get", resource := "imagestreams", resourceName := streamName
      , nspace := f.nspace }
    match sar f.nspace streamName with
    | SARResult.response true => ([], [check])
    | _ =>
      ([{ kind := FieldErrorKind.forbidden, field := "spec.tags[" ++ tag ++ "].from"
        , detail := f.nspace ++ "/" ++ streamName }], [check])

/-- Embedding of one iteration of TagVerifier.Verify (strategy.go lines
389-425): skip a nil from, an empty from namespace, a same-namespace
reference, and an existing unchanged reference; otherwise run the
check. -/
def verifyEntry (sar : String → String → SARResult) (stream : ImageStream)
    (oldTags : List (String × TagReference)) (tag : String) (tagRef : TagReference) :
    List FieldError × List SARCheck :=
  match tagRef.fromRef with
  | none => ([], [])
  | some f =>
    if f.nspace = "" then ([], [])
    else if stream.nspace = f.nspace then ([], [])
    else
      match alookup oldTags tag with
      | some oldRef =>
        if tagRefChanged oldRef tagRef stream.nspace then verifyEntryCheck sar stream tag f
        else ([], [])
      | none => verifyEntryCheck sar stream tag f

/-- Embedding of TagVerifier.Verify (strategy.go lines 383-427),
additionally recording the list of issued access reviews. -/
def verify (sar : String → String → SARResult) (old : Option ImageStream)
    (stream : ImageStream) : List FieldError × List SARCheck :=
  let oldTags := match old with
    | some o => o.spec.tags
    | none => []
  ((stream.spec.tags.map fun p => verifyEntry sar stream oldTags p.1 p.2).flatMap Prod.fst,
   (stream.spec.tags.map fun p => verifyEntry sar stream oldTags p.1 p.2).flatMap Prod.snd)

/-- Rendering of claim C4 as amended for one tag: a check is issued
exactly for a tag whose from carries a non-empty namespace different
from the resource namespace, which is newly set or changed, and whose
reference name parses; a parse failure records an invalid field error
and issues no check; an issued check that is not answered with an
allowed response records a forbidden error naming the tag path and the
cross-namespace target. -/
def verifyEntrySpec (sar : String → String → SARResult) (stream : ImageStream)
    (oldTags : List (String × TagReference)) (tag : String) (tagRef : TagReference) :
    List FieldError × List SARCheck :=
  match tagRef.fromRef with
  | none => ([], [])
  | some f =>
    if f.nspace ≠ "" ∧ f.nspace ≠ stream.nspace ∧
       (match alookup oldTags tag with
        | none => true
        | some oldRef => tagRefChanged oldRef tagRef stream.nspace) = true then
      match parseFromReference stream f with
      | Except.error _ =>
        ([{ kind := FieldErrorKind.invalid, field := "spec.tags[" ++ tag ++ "].from.name"
          , detail := f.name }], [])
      | Except.ok (streamName, _) =>
        ((if sar f.nspace streamName = SARResult.response true then []
          else [{ kind := FieldErrorKind.forbidden, field := "spec.tags[" ++ tag ++ "].from"
                , detail := f.nspace ++ "/" ++ streamName }]),
         [{ verb := "get", resource := "imagestreams", resourceName := streamName
          , nspace := f.nspace }])
    else ([], [])

/-- Aggregation of the amended per-tag rendering over all spec tags. -/
def verifySpec (sar : String → String → SARResult) (old : Option ImageStream)
    (stream : ImageStream) : List FieldError × List SARCheck :=
  let oldTags := match old with
    | some o => o.spec.tags
    | none => []
  ((stream.spec.tags.map fun p => verifyEntrySpec sar stream oldTags p.1 p.2).flatMap Prod.fst,
   (stream.spec.tags.map fun p => verifyEntrySpec sar stream oldTags p.1 p.2).flatMap Prod.snd)

theorem verifyEntryCheck_unfolded (sar : String → String → SARResult) (stream : ImageStream)
    (tag : String) (f : ObjectReference) :
    verifyEntryCheck sar stream tag f =
      (match parseFromReference stream f with
       | Except.error _ =>
         ([{ kind := FieldErrorKind.invalid, field := "spec.tags[" ++ tag ++ "].from.name"
           , detail := f.name }], [])
       | Except.ok (streamName, _) =>
         ((if sar f.nspace streamName = SARResult.response true then []
           else [{ kind := FieldErrorKind.forbidden, field := "spec.tags[" ++ tag ++ "].from"
                 , detail := f.nspace ++ "/" ++ streamName }]),
          [{ verb := "get", resource := "imagestreams", resourceName := streamName
           , nspace := f.nspace }])) := by
  unfold verifyEntryCheck
  cases hp : parseFromReference stream f with
  | error e => rfl
  | ok pr =>
    obtain ⟨n, r⟩ := pr
    cases hs : sar f.nspace n with
    | failure => simp [hs]
    | nilResponse => simp [hs]
    | response b => cases b <;> simp [hs]

theorem verifyEntry_eq_spec (sar : String → String → SARResult) (stream : ImageStream)
    (oldTags : List (String × TagReference)) (tag : String) (tagRef : TagReference) :
    verifyEntry sar stream oldTags tag tagRef = verifyEntrySpec sar stream oldTags tag tagRef := by
  unfold verifyEntry verifyEntrySpec
  cases hf : tagRef.fromRef with
  | none => rfl
  | some f =>
    by_cases h1 : f.nspace = ""
    · simp [h1]
    · by_cases h2 : stream.nspace = f.nspace
      · have h2' : ¬ (f.nspace ≠ stream.nspace) := fun hh => hh h2.symm
        simp [h1, h2, h2']
      · have h2' : f.nspace ≠ stream.nspace := fun hh => h2 hh.symm
        cases ho : alookup oldTags tag with
        | none => simp [h1, h2, h2', ho, verifyEntryCheck_unfolded]
        | some oldRef =>
          by_cases hch : tagRefChanged oldRef tagRef stream.nspace
          · simp [h1, h2, h2', ho, hch, verifyEntryCheck_unfolded]
          · simp [h1, h2, h2', ho, hch]

/-- Subject access review client that allows everything, used in the C4
counterexample. -/
def sarAllow : String → String → SARResult := fun _ _ => SARResult.response true

/-- Stream used to refute claim C4: one newly set tag whose from carries
the cross-namespace other but whose kind DockerImage makes the reference
name unparseable by parseFromReference. -/
def c4Stream : ImageStream :=
  { nspace := "ns", name := "s", creationTimestamp := 0, generation := 1
  , spec := { dockerImageRepository := ""
            , tags := [("t", { fromRef := some { kind := "DockerImage", name := "x"
                                               , nspace := "other" }
                             , generation := none, reference := false })] }
  , status := { dockerImageRepository := "", tags := [] } }

/-- C4 counterexample: the tag t is newly set and carries a non-empty
namespace different from the resource namespace, so the claim says a
check is issued; the code instead fails to parse the reference, records
an invalid field error, and issues no check at all. -/
theorem c4_counterexample :
    (verify sarAllow none c4Stream).2 = [] ∧
    (verify sarAllow none c4Stream).1 =
      [{ kind := FieldErrorKind.invalid, field := "spec.tags[t].from.name", detail := "x" }] ∧
    ("other" : String) ≠ "" ∧ ("other" : String) ≠ c4Stream.nspace ∧
    alookup ([] : List (String × TagReference)) "t" = none := by
  refine ⟨rfl, rfl, by decide, by decide, rfl⟩

/-- C4 (amended): the verifier issues a check exactly for those spec
tags whose from carries a non-empty namespace different from the
resource namespace, which are newly set or changed per tagRefChanged,
and whose reference name parses; a parse failure yields an invalid field
error and no check; a check answered by an error, a nil response or a
non-allowed response yields a forbidden error naming spec.tags[tag].from
and the cross-namespace target; same-namespace and unchanged references
are never checked. -/
theorem c4_verify_spec (sar : String → String → SARResult) (old : Option ImageStream)
    (stream : ImageStream) :
    verify sar old stream = verifySpec sar old stream := by
  unfold verify verifySpec
  simp only [verifyEntry_eq_spec]
